import Mathlib

/-!
Verification development for the RORO Sentinel decision pipeline
(`roro_sentinel`): a shallow embedding, in Lean 4, of the components named
by the specification — regime engine, correlation monitor, divergence
engine, signal generator, position sizer, liquidation guard, trade
validator and the orchestration loop — together with theorems settling the
behavioural claims made about them.

Modelling conventions:
* Python floats are modelled as `ℚ` (exact rationals).
* Wall-clock timestamps, log statements and generated uuid identifiers are
  elided: no claim depends on them.  String fields that a claim inspects
  (reasons, action codes) are kept verbatim; numeric interpolation inside
  log-style messages is elided.
* Calls to external collaborators (data feed, broker) are modelled as
  explicit parameters: a fallible history fetch is an
  `Except String (List ℚ)` of close prices, `calculate_correlation` is a
  function parameter, a quote is a function from symbol to price.
* Mutable object state is passed explicitly and threaded through each
  operation.
-/

namespace RoroSentinel

/-- Last element of a close-price series, `0` for the empty series
(the Python code indexes `iloc[-1]` only on series it just fetched). -/
def lastD (xs : List ℚ) : ℚ := xs.getLast?.getD 0

/-- Python builtin `min` on two rationals. -/
def pymin (a b : ℚ) : ℚ := if a ≤ b then a else b

/-- Python builtin `max` on two rationals. -/
def pymax (a b : ℚ) : ℚ := if b ≤ a then a else b

/-- Python builtin `abs` on a rational. -/
def pyabs (a : ℚ) : ℚ := if a < 0 then -a else a

/-! ## Regime engine (`core/regime_engine.py`) -/

/-- `RegimeType` enum. -/
inductive RegimeType where
  | strong_risk_on
  | weak_risk_on
  | neutral
  | weak_risk_off
  | strong_risk_off
  | unreliable
  | data_error
deriving DecidableEq, BEq

/-- `VIXCategory` enum. -/
inductive VIXCategory where
  | low
  | moderate
  | high
  | extreme
deriving DecidableEq, BEq

/-- `RegimeClassification` dataclass (timestamp elided). -/
structure RegimeClassification where
  regime_type : RegimeType
  score : ℚ
  correlation_health : ℚ
  vix_level : ℚ
  threshold_used : ℚ
  confidence : ℚ
  session : String
  status : String
  reason : String
deriving DecidableEq, BEq

/-- The `config['regime']` section: base threshold, VIX band cut points with
per-band threshold multipliers, and the score-classification cut points. -/
structure RegimeSection where
  base_threshold_percent : ℚ
  vix_low_max : ℚ
  vix_moderate_max : ℚ
  vix_high_max : ℚ
  vix_low_multiplier : ℚ
  vix_moderate_multiplier : ℚ
  vix_high_multiplier : ℚ
  vix_extreme_multiplier : ℚ
  strong_risk_on_min : ℚ
  weak_risk_on_min : ℚ
  neutral_min : ℚ
  weak_risk_off_min : ℚ
deriving DecidableEq

/-- The `config['correlation']` section fields the engine reads. -/
structure CorrelationSection where
  lookback_periods : ℕ
  healthy_threshold : ℚ
  critical_breakdown : ℚ
  volatility_limit : ℚ
deriving DecidableEq

/-- Per-gauge weights from `config['instruments']['primary_gauges']`
(`weights.get(sym, 0)` on the four gauges the code reads). -/
structure GaugeWeights where
  us500 : ℚ
  usdjpy : ℚ
  vix : ℚ
  us10y : ℚ
deriving DecidableEq

/-- `RegimeEngine._percent_change`: percentage change from first to last
close; `0.0` for series shorter than 2. -/
def percent_change (closes : List ℚ) : ℚ :=
  if closes.length < 2 then 0
  else ((lastD closes - closes.headD 0) / closes.headD 0) * 100

/-- `RegimeEngine._trend_direction`: rising / falling / flat with a
±0.05 % deadband. -/
def trend_direction (closes : List ℚ) : String :=
  if closes.length < 2 then "flat"
  else
    let change_pct := ((lastD closes - closes.headD 0) / closes.headD 0) * 100
    if change_pct > 1/20 then "rising"
    else if change_pct < -(1/20) then "falling"
    else "flat"

/-- `RegimeEngine._categorize_vix`. -/
def categorize_vix (rc : RegimeSection) (vix_level : ℚ) : VIXCategory :=
  if vix_level < rc.vix_low_max then .low
  else if vix_level < rc.vix_moderate_max then .moderate
  else if vix_level < rc.vix_high_max then .high
  else .extreme

/-- Threshold multiplier attached to a VIX band in the config. -/
def vix_threshold_multiplier (rc : RegimeSection) : VIXCategory → ℚ
  | .low => rc.vix_low_multiplier
  | .moderate => rc.vix_moderate_multiplier
  | .high => rc.vix_high_multiplier
  | .extreme => rc.vix_extreme_multiplier

/-- `RegimeEngine._classify_score`: 5-bucket ladder on the aggregate
risk-on score. -/
def classify_score (rc : RegimeSection) (score : ℚ) : RegimeType :=
  if score ≥ rc.strong_risk_on_min then .strong_risk_on
  else if score ≥ rc.weak_risk_on_min then .weak_risk_on
  else if score ≥ rc.neutral_min then .neutral
  else if score ≥ rc.weak_risk_off_min then .weak_risk_off
  else .strong_risk_off

/-- `RegimeEngine._calculate_confidence`: mean of the correlation-strength,
correlation-stability and VIX-calmness factors.  Note the first factor is
only clipped from above (`min(1.0, corr / 0.7)`). -/
def calculate_confidence (corr corr_vol vix : ℚ) : ℚ :=
  let f1 := pymin 1 (corr / (7/10))
  let f2 := pymax 0 (1 - corr_vol / (1/5))
  let f3 := pymax 0 (1 - pymax 0 (vix - 15) / 25)
  (f1 + f2 + f3) / 3

/-- The weighted risk-on score accumulated in step 5 of `analyze_regime`. -/
def risk_on_score (w : GaugeWeights) (threshold spx_change usdjpy_change vix_change : ℚ)
    (us10y_trend : String) : ℚ :=
  let s1 : ℚ :=
    if spx_change > threshold then w.us500
    else if spx_change < -threshold then -w.us500
    else 0
  let s2 :=
    if usdjpy_change > threshold then s1 + w.usdjpy
    else if usdjpy_change < -threshold then s1 - w.usdjpy
    else s1
  let s3 :=
    if vix_change < -5 then s2 + w.vix
    else if vix_change > 5 then s2 - w.vix
    else s2
  if us10y_trend = "rising" then s3 + w.us10y
  else if us10y_trend = "falling" then s3 - w.us10y
  else s3

/-- Session adjustment applied to the score in step 7 of `analyze_regime`. -/
def session_adjusted_score (current_session : String) (score : ℚ) : ℚ :=
  if current_session = "ASIAN" then score * (14/10)
  else if current_session = "US_ONLY" ∨ current_session = "US_LATE" then score * (9/10)
  else score

/-- The `DATA_ERROR` sentinel classification returned when a fetch raises. -/
def data_error_classification (current_session reason : String) : RegimeClassification :=
  { regime_type := .data_error, score := 0, correlation_health := 0, vix_level := 0,
    threshold_used := 0, confidence := 0, session := current_session,
    status := "DATA_ERROR", reason := reason }

/-- `RegimeEngine.analyze_regime`.  The four history fetches are passed as
`Except` values (a `.error` is a raised feed exception, caught by the
`try` block, first failure wins); `calcCorr` stands for the data feed's
`calculate_correlation`.  The retained `last_regime` field only drives a
log line and is elided. -/
def analyze_regime (rc : RegimeSection) (cc : CorrelationSection) (w : GaugeWeights)
    (calcCorr : List ℚ → List ℚ → ℕ → ℚ × ℚ)
    (spx usdjpy vix us10y : Except String (List ℚ))
    (current_session : String) : RegimeClassification :=
  match spx with
  | .error e => data_error_classification current_session e
  | .ok spx_data =>
    match usdjpy with
    | .error e => data_error_classification current_session e
    | .ok usdjpy_data =>
      match vix with
      | .error e => data_error_classification current_session e
      | .ok vix_data =>
        match us10y with
        | .error e => data_error_classification current_session e
        | .ok us10y_data =>
          let spx_change := percent_change spx_data
          let usdjpy_change := percent_change usdjpy_data
          let vix_change := percent_change vix_data
          let us10y_trend := trend_direction us10y_data
          let vix_level := lastD vix_data
          let vix_category := categorize_vix rc vix_level
          let threshold := rc.base_threshold_percent * vix_threshold_multiplier rc vix_category
          let core := calcCorr spx_data usdjpy_data cc.lookback_periods
          let core_corr := core.1
          let corr_vol := core.2
          if corr_vol > cc.volatility_limit then
            { regime_type := .unreliable, score := 0, correlation_health := core_corr,
              vix_level := vix_level, threshold_used := threshold, confidence := 0,
              session := current_session, status := "UNRELIABLE",
              reason := "Correlation instability" }
          else
            let score0 := risk_on_score w threshold spx_change usdjpy_change vix_change us10y_trend
            let regime_type := classify_score rc score0
            let score := session_adjusted_score current_session score0
            let confidence := calculate_confidence core_corr corr_vol vix_level
            { regime_type := regime_type, score := score, correlation_health := core_corr,
              vix_level := vix_level, threshold_used := threshold, confidence := confidence,
              session := current_session, status := "OK", reason := "" }

/-! ## Correlation monitor (`core/correlation_monitor.py`) -/

/-- `CorrelationHealth` enum. -/
inductive CorrelationHealth where
  | healthy
  | warning
  | critical
  | broken
deriving DecidableEq, BEq

/-- `CorrelationStatus` dataclass (timestamp elided). -/
structure CorrelationStatus where
  instrument1 : String
  instrument2 : String
  correlation : ℚ
  volatility : ℚ
  health : CorrelationHealth
  lookback_periods : ℕ
deriving DecidableEq, BEq

/-- `CorrelationMonitor._assess_health`: volatility above the cap dominates
(WARNING), otherwise the absolute correlation is laddered. -/
def assess_health (cc : CorrelationSection) (correlation volatility : ℚ) : CorrelationHealth :=
  if volatility > cc.volatility_limit then .warning
  else if pyabs correlation ≥ cc.healthy_threshold then .healthy
  else if pyabs correlation ≥ cc.critical_breakdown then .warning
  else if pyabs correlation ≥ cc.critical_breakdown * (3/4) then .critical
  else .broken

/-- Python slice `xs[-10:]` and friends: the last `n` elements. -/
def lastSlice (n : ℕ) (xs : List α) : List α := xs.drop (xs.length - n)

/-- Membership test for the core US500/USDJPY pair in either symbol order,
as written in `get_core_correlation` / `is_correlation_healthy`. -/
def is_core_pair (s : CorrelationStatus) : Bool :=
  (s.instrument1 == "US500" && s.instrument2 == "USDJPY") ||
  (s.instrument1 == "USDJPY" && s.instrument2 == "US500")

/-- Health is HEALTHY or WARNING (not CRITICAL/BROKEN). -/
def healthy_or_warning (s : CorrelationStatus) : Bool :=
  s.health == .healthy || s.health == .warning

/-- `CorrelationMonitor.is_correlation_healthy`: filters the core-pair
entries out of the last 10 entries of the whole history; empty ⇒ `False`,
otherwise all must be HEALTHY or WARNING. -/
def is_correlation_healthy (correlation_history : List CorrelationStatus) : Bool :=
  let recent_statuses := (lastSlice 10 correlation_history).filter is_core_pair
  if recent_statuses.isEmpty then false
  else recent_statuses.all healthy_or_warning

/-! ## Liquidation guard (`risk/liquidation_guard.py`) -/

/-- `MarginLevel` enum. -/
inductive MarginLevel where
  | safe
  | monitor
  | warning
  | danger
  | critical
deriving DecidableEq, BEq

/-- Margin ratio value: `equity / margin_used`, or the Python
`float('inf')` placeholder when no margin is used. -/
inductive MarginRatioValue where
  | finite (q : ℚ)
  | infinite
deriving DecidableEq, BEq

/-- Strict comparison of a margin ratio against a finite cut point
(`inf < c` is false for every finite `c`). -/
def MarginRatioValue.ltc : MarginRatioValue → ℚ → Bool
  | .finite q, c => decide (q < c)
  | .infinite, _ => false

/-- One open position as returned by the broker collaborator. -/
structure BrokerPosition where
  symbol : String
  quantity : ℚ
  entry_price : ℚ
  current_price : ℚ
  unrealized_pnl : ℚ
deriving DecidableEq, BEq

/-- `MarginStatus` dataclass (timestamp elided; the numeric interpolation
inside `message` is elided, the fixed text is kept). -/
structure MarginStatus where
  level : MarginLevel
  margin_ratio : MarginRatioValue
  equity : ℚ
  margin_used : ℚ
  maintenance_margin : ℚ
  max_adverse_move_percent : ℚ
  action_required : String
  message : String
deriving DecidableEq, BEq

/-- `LiquidationGuard._calculate_liquidation_distance`. -/
def calculate_liquidation_distance (positions : List BrokerPosition)
    (equity margin_used maintenance_margin : ℚ) : ℚ :=
  if positions.isEmpty || margin_used == 0 then 100
  else
    let buffer := equity - maintenance_margin
    if buffer ≤ 0 then 0
    else
      let total_position_value := (positions.map (fun p => pyabs (p.quantity * p.current_price))).sum
      if total_position_value == 0 then 100
      else (buffer / total_position_value) * 100

/-- `LiquidationGuard.check_margin_safety`, with the broker's account
summary fields passed explicitly.  The appended `margin_history` entry only
feeds reporting and is elided. -/
def check_margin_safety (equity margin_used maintenance_margin : ℚ)
    (positions : List BrokerPosition) : MarginStatus :=
  let margin_ratio : MarginRatioValue :=
    if margin_used > 0 then .finite (equity / margin_used) else .infinite
  let max_adverse_move :=
    calculate_liquidation_distance positions equity margin_used maintenance_margin
  if margin_ratio.ltc (5/4) then
    { level := .critical, margin_ratio := margin_ratio, equity := equity,
      margin_used := margin_used, maintenance_margin := maintenance_margin,
      max_adverse_move_percent := max_adverse_move,
      action_required := "LIQUIDATE_NOW",
      message := "CRITICAL: CLOSE ALL POSITIONS IMMEDIATELY" }
  else if margin_ratio.ltc (3/2) then
    { level := .danger, margin_ratio := margin_ratio, equity := equity,
      margin_used := margin_used, maintenance_margin := maintenance_margin,
      max_adverse_move_percent := max_adverse_move,
      action_required := "IMMEDIATE_REDUCTION",
      message := "DANGER: Close 50% of positions NOW" }
  else if margin_ratio.ltc (7/4) then
    { level := .warning, margin_ratio := margin_ratio, equity := equity,
      margin_used := margin_used, maintenance_margin := maintenance_margin,
      max_adverse_move_percent := max_adverse_move,
      action_required := "STOP_NEW_ENTRIES",
      message := "WARNING: No new trades, monitor closely" }
  else if margin_ratio.ltc (5/2) then
    { level := .monitor, margin_ratio := margin_ratio, equity := equity,
      margin_used := margin_used, maintenance_margin := maintenance_margin,
      max_adverse_move_percent := max_adverse_move,
      action_required := "MONITOR",
      message := "MONITOR: Be cautious with new positions" }
  else
    { level := .safe, margin_ratio := margin_ratio, equity := equity,
      margin_used := margin_used, maintenance_margin := maintenance_margin,
      max_adverse_move_percent := max_adverse_move,
      action_required := "NONE",
      message := "SAFE: buffer to margin call" }

/-- `LiquidationGuard.should_allow_new_position`: new positions only at
SAFE or MONITOR. -/
def should_allow_new_position (equity margin_used maintenance_margin : ℚ)
    (positions : List BrokerPosition) : Bool :=
  let level := (check_margin_safety equity margin_used maintenance_margin positions).level
  level == .safe || level == .monitor

/-! ## Divergence engine (`core/divergence_detector.py`) -/

/-- `DivergenceType` enum. -/
inductive DivergenceType where
  | bullish
  | bearish
  | false_positive
deriving DecidableEq, BEq

/-- `DivergenceSignal` dataclass (timestamp and free-form `details`
elided). -/
structure DivergenceSignal where
  type : DivergenceType
  instrument : String
  confidence : ℚ
  magnitude : ℚ
  correlation : ℚ
deriving DecidableEq, BEq

/-- A false-positive filter as seen by `_validate_divergence`: a call on
the candidate that yields a verdict or raises. -/
def DivergenceFilter : Type := DivergenceSignal → Except String Bool

/-- `DivergenceEngine._validate_divergence`: run the filters in order; a
`False` verdict rejects, and a raised filter also rejects (the
`except` branch is fail-closed). -/
def validate_divergence (filters : List DivergenceFilter) (signal : DivergenceSignal) : Bool :=
  match filters with
  | [] => true
  | f :: rest =>
    match f signal with
    | .ok true => validate_divergence rest signal
    | .ok false => false
    | .error _ => false

/-- `DivergenceEngine._calculate_divergence_strength`:
0.6 × normalized magnitude + 0.4 × normalized correlation. -/
def calculate_divergence_strength (magnitude correlation : ℚ) : ℚ :=
  let magnitude_score := pymin 1 (magnitude / (1/100))
  let correlation_score := pymax (3/10) (pymin 1 (correlation / (7/10)))
  magnitude_score * (6/10) + correlation_score * (4/10)

/-- The fixed satellite roster scanned by `scan_divergences`. -/
def satellite_instruments : List String := ["DAX", "NAS100", "AUDJPY"]

/-- `DivergenceEngine.scan_divergences`.  The raw candidate searches are
collaborator-driven and passed in: `core_candidate` is the result of
`_check_spx_usdjpy_divergence` (which catches its own errors and returns
`None`), `sat_check` the per-satellite search, whose raised errors the
loop's `try` skips.  Each surfaced candidate must pass
`validate_divergence`. -/
def scan_divergences (filters : List DivergenceFilter)
    (core_candidate : Option DivergenceSignal)
    (sat_check : String → Except String (Option DivergenceSignal)) : List DivergenceSignal :=
  let core_part :=
    match core_candidate with
    | some c => if validate_divergence filters c then [c] else []
    | none => []
  let sat_part := satellite_instruments.filterMap fun satellite =>
    match sat_check satellite with
    | .ok (some s) => if validate_divergence filters s then some s else none
    | .ok none => none
    | .error _ => none
  core_part ++ sat_part

/-! ## Signal generator (`core/signal_generator.py`) -/

/-- `SignalType` enum. -/
inductive SignalType where
  | buy
  | sell
  | close
  | no_trade
deriving DecidableEq, BEq

/-- `SignalPriority` enum. -/
inductive SignalPriority where
  | p0_critical
  | p1_high
  | p2_medium
  | p3_low
deriving DecidableEq, BEq

/-- `TradeSignal` dataclass (timestamp and uuid generation elided). -/
structure TradeSignal where
  id : String
  signal_type : SignalType
  instrument : String
  priority : SignalPriority
  confidence : ℚ
  regime : RegimeClassification
  divergence : Option DivergenceSignal
  correlation_health : String
  suggested_entry : ℚ
  suggested_stop : ℚ
  suggested_target : ℚ
  position_size_multiplier : ℚ
  reasoning : String
deriving DecidableEq, BEq

/-- The fixed `significant_shifts` transition list in `_is_regime_shift`. -/
def significant_shifts : List (RegimeType × RegimeType) :=
  [(.strong_risk_on, .strong_risk_off),
   (.strong_risk_off, .strong_risk_on),
   (.weak_risk_on, .strong_risk_off),
   (.weak_risk_off, .strong_risk_on)]

/-- `SignalGenerator._is_regime_shift`: the pair (old, new) or its reverse
must be in the significant list; no previous fused signal means no shift. -/
def is_regime_shift (last_signal : Option TradeSignal) (regime : RegimeClassification) : Bool :=
  match last_signal with
  | none => false
  | some ls =>
    let old_regime := ls.regime.regime_type
    let new_regime := regime.regime_type
    significant_shifts.contains (old_regime, new_regime) ||
    significant_shifts.contains (new_regime, old_regime)

/-- `SignalGenerator._generate_regime_shift_signal`: CLOSE-all at fixed
0.95 confidence and priority P0. -/
def generate_regime_shift_signal (regime : RegimeClassification)
    (overall_health : String) : TradeSignal :=
  { id := "", signal_type := .close, instrument := "ALL", priority := .p0_critical,
    confidence := 19/20, regime := regime, divergence := none,
    correlation_health := overall_health, suggested_entry := 0, suggested_stop := 0,
    suggested_target := 0, position_size_multiplier := 0,
    reasoning := "REGIME SHIFT DETECTED" }

/-- `SignalGenerator._generate_divergence_signal` (P1), with the live
quote modelled as a price function on symbols and the configured
`risk.divergence_penalty` passed in. -/
def generate_divergence_signal (divergence_penalty : ℚ) (divergence : DivergenceSignal)
    (regime : RegimeClassification) (overall_health : String)
    (quote : String → ℚ) : TradeSignal :=
  let entry_price := quote divergence.instrument
  let signal_type : SignalType := if divergence.type == .bullish then .buy else .sell
  let stop_price :=
    if divergence.type == .bullish then entry_price * (9975/10000)
    else entry_price * (10025/10000)
  let target_price :=
    if divergence.type == .bullish then entry_price * (1005/1000)
    else entry_price * (995/1000)
  let boosted :=
    if divergence.type == .bullish &&
        (regime.regime_type == .weak_risk_on || regime.regime_type == .strong_risk_on) then
      divergence.confidence * (12/10)
    else if divergence.type == .bearish &&
        (regime.regime_type == .weak_risk_off || regime.regime_type == .strong_risk_off) then
      divergence.confidence * (12/10)
    else divergence.confidence
  let final_confidence := pymin (19/20) boosted
  { id := "", signal_type := signal_type, instrument := divergence.instrument,
    priority := .p1_high, confidence := final_confidence, regime := regime,
    divergence := some divergence, correlation_health := overall_health,
    suggested_entry := entry_price, suggested_stop := stop_price,
    suggested_target := target_price, position_size_multiplier := divergence_penalty,
    reasoning := "divergence detected" }

/-- `SignalGenerator._generate_regime_signal` (P2). -/
def generate_regime_signal (regime : RegimeClassification) (overall_health : String)
    (quote : String → ℚ) : TradeSignal :=
  let entry_price := quote "US500"
  let signal_type : SignalType :=
    if regime.regime_type == .strong_risk_on then .buy else .sell
  let stop_price :=
    if regime.regime_type == .strong_risk_on then entry_price * (997/1000)
    else entry_price * (1003/1000)
  let target_price :=
    if regime.regime_type == .strong_risk_on then entry_price * (101/100)
    else entry_price * (99/100)
  { id := "", signal_type := signal_type, instrument := "US500", priority := .p2_medium,
    confidence := regime.confidence, regime := regime, divergence := none,
    correlation_health := overall_health, suggested_entry := entry_price,
    suggested_stop := stop_price, suggested_target := target_price,
    position_size_multiplier := 8/10, reasoning := "Strong regime" }

/-- The default NO_TRADE result of `generate_signal`. -/
def no_trade_signal (regime : RegimeClassification) (overall_health : String) : TradeSignal :=
  { id := "", signal_type := .no_trade, instrument := "US500", priority := .p3_low,
    confidence := 0, regime := regime, divergence := none,
    correlation_health := overall_health, suggested_entry := 0, suggested_stop := 0,
    suggested_target := 0, position_size_multiplier := 0,
    reasoning := "No high-probability setup detected" }

/-- Python `max(divergences, key=lambda d: d.confidence)`: first element of
maximal confidence. -/
def max_by_confidence (acc : DivergenceSignal) : List DivergenceSignal → DivergenceSignal
  | [] => acc
  | d :: rest => max_by_confidence (if d.confidence > acc.confidence then d else acc) rest

/-- The P2-or-default tail of `generate_signal`: strong regime with healthy
correlation and confidence above 0.70, else NO_TRADE. -/
def regime_or_no_trade (regime : RegimeClassification) (correlation_healthy : Bool)
    (overall_health : String) (quote : String → ℚ) : TradeSignal :=
  if (regime.regime_type == .strong_risk_on || regime.regime_type == .strong_risk_off) &&
      correlation_healthy && decide (regime.confidence > 7/10) then
    generate_regime_signal regime overall_health quote
  else no_trade_signal regime overall_health

/-- `SignalGenerator.generate_signal`: priority fusion P0 → P1 → P2 →
NO_TRADE.  The collaborator outputs (regime classification, correlation
health flag, report's overall health label, validated divergences, live
quotes) are passed as inputs; `last_signal` is the generator's retained
previous fused signal. -/
def generate_signal (divergence_penalty : ℚ) (last_signal : Option TradeSignal)
    (regime : RegimeClassification) (correlation_healthy : Bool)
    (overall_health : String) (divergences : List DivergenceSignal)
    (quote : String → ℚ) : TradeSignal :=
  if is_regime_shift last_signal regime then
    generate_regime_shift_signal regime overall_health
  else
    match divergences, correlation_healthy with
    | d :: rest, true =>
      let best_divergence := max_by_confidence d rest
      if best_divergence.confidence > 13/20 then
        generate_divergence_signal divergence_penalty best_divergence regime overall_health quote
      else regime_or_no_trade regime correlation_healthy overall_health quote
    | _, _ => regime_or_no_trade regime correlation_healthy overall_health quote

/-! ## Position sizer (`risk/position_sizer.py`) -/

/-- `PositionSizingResult` dataclass.  The joined reasoning trail is kept
only where a claim inspects it: the two zero-size reasons are verbatim,
other trails are elided to fixed labels. -/
structure PositionSizingResult where
  risk_amount : ℚ
  position_size : ℚ
  margin_required : ℚ
  swap_cost : ℚ
  leverage_used : ℚ
  reasoning : String
deriving DecidableEq, BEq

/-- The `config['risk']` fields the sizer reads. -/
structure RiskSection where
  max_per_trade_risk_percent : ℚ
  max_daily_risk_percent : ℚ
  divergence_penalty : ℚ
  max_leverage : ℚ
  swap_cost_threshold : ℚ
deriving DecidableEq

/-- Mutable state of `CFDRiskCalculator`. -/
structure SizerState where
  active_divergences : List String
  today_risk_used : ℚ
deriving DecidableEq

/-- The hard-coded annualized swap-rate table in `_project_overnight_cost`
(`swap_rates.get(instrument, -0.03)`). -/
def swap_rate (instrument : String) : ℚ :=
  if instrument == "US500" then -3/100
  else if instrument == "USDJPY" then -1/50
  else if instrument == "DAX" then -7/200
  else if instrument == "NAS100" then -3/100
  else -3/100

/-- `CFDRiskCalculator._project_overnight_cost` (the unused `entry_price`
parameter is kept for fidelity). -/
def project_overnight_cost (instrument : String) (position_value _entry_price : ℚ) : ℚ :=
  position_value * (swap_rate instrument / 365)

/-- `CFDRiskCalculator._create_zero_position`. -/
def create_zero_position (reason : String) : PositionSizingResult :=
  { risk_amount := 0, position_size := 0, margin_required := 0, swap_cost := 0,
    leverage_used := 0, reasoning := reason }

/-- `CFDRiskCalculator.calculate_position_size` with the object state
threaded explicitly: the method reads `active_divergences` and
`today_risk_used` and assigns no field of `self`, so every exit returns
the state it was given. -/
def calculate_position_size (cfg : RiskSection) (st : SizerState) (account_equity : ℚ)
    (instrument : String)
    (entry_price stop_loss_price signal_confidence regime_score position_size_multiplier : ℚ) :
    PositionSizingResult × SizerState :=
  let max_risk_pct := cfg.max_per_trade_risk_percent / 100
  let base_risk0 := account_equity * max_risk_pct
  let base_risk1 := if signal_confidence < 13/20 then base_risk0 * (1/2) else base_risk0
  let regime_adjustment := pymin 1 (pyabs regime_score / 2)
  let base_risk2 := if regime_adjustment < 1 then base_risk1 * regime_adjustment else base_risk1
  let base_risk3 := base_risk2 * position_size_multiplier
  let base_risk4 :=
    if st.active_divergences.contains instrument then base_risk3 * cfg.divergence_penalty
    else base_risk3
  let stop_distance := pyabs (entry_price - stop_loss_price)
  if stop_distance = 0 then (create_zero_position "Stop distance is zero", st)
  else
    let position_value0 := base_risk4 / (stop_distance / entry_price)
    let swap_cost := project_overnight_cost instrument position_value0 entry_price
    let base_risk5 :=
      if swap_cost < cfg.swap_cost_threshold then base_risk4 * (7/10) else base_risk4
    let position_value1 :=
      if swap_cost < cfg.swap_cost_threshold then position_value0 * (7/10) else position_value0
    let margin_required0 := position_value1 / cfg.max_leverage
    let margin_scaling :=
      if margin_required0 > account_equity * (7/10) then (account_equity * (7/10)) / margin_required0
      else 1
    let base_risk6 := base_risk5 * margin_scaling
    let position_value2 := position_value1 * margin_scaling
    let margin_required1 :=
      if margin_required0 > account_equity * (7/10) then position_value2 / cfg.max_leverage
      else margin_required0
    let max_daily_risk := account_equity * (cfg.max_daily_risk_percent / 100)
    if st.today_risk_used + base_risk6 > max_daily_risk then
      let available_risk := max_daily_risk - st.today_risk_used
      if available_risk ≤ 0 then (create_zero_position "Daily risk limit reached", st)
      else
        let scaling_factor := available_risk / base_risk6
        let position_value3 := position_value2 * scaling_factor
        let margin_required2 := position_value3 / cfg.max_leverage
        let leverage_used :=
          if margin_required2 > 0 then position_value3 / margin_required2 else 0
        ({ risk_amount := available_risk, position_size := position_value3 / entry_price,
           margin_required := margin_required2, swap_cost := swap_cost,
           leverage_used := leverage_used, reasoning := "Daily risk cap" }, st)
    else
      let leverage_used :=
        if margin_required1 > 0 then position_value2 / margin_required1 else 0
      ({ risk_amount := base_risk6, position_size := position_value2 / entry_price,
         margin_required := margin_required1, swap_cost := swap_cost,
         leverage_used := leverage_used, reasoning := "sized" }, st)

/-- `CFDRiskCalculator.update_daily_risk_used`. -/
def update_daily_risk_used (st : SizerState) (risk_amount : ℚ) : SizerState :=
  { st with today_risk_used := st.today_risk_used + risk_amount }

/-- `CFDRiskCalculator.reset_daily_risk`. -/
def reset_daily_risk (st : SizerState) : SizerState :=
  { st with today_risk_used := 0 }

/-! ## Trade validator (`execution/trade_validator.py`) -/

/-- `ConfirmationResponse` dataclass (timestamp elided). -/
structure ConfirmationResponse where
  trade_id : String
  confirmed : Bool
  reason : String
deriving DecidableEq, BEq

/-- Outcome of the `asyncio.wait_for` around `_wait_for_confirmation`:
either the wait completed with a verdict before the configured timeout, or
the timeout elapsed first (`asyncio.TimeoutError`). -/
inductive WaitOutcome where
  | completed (confirmed : Bool)
  | timed_out
deriving DecidableEq, BEq

/-- `TradeValidator._check_trader_readiness`: ≥3 recent losses block; a
daily loss above 70 % of the cap warns but allows; hours 00–05 GMT block.
The wall-clock inputs (recent loss count, current hour) are passed in. -/
def check_trader_readiness (recent_loss_count : ℕ) (today_loss_amount max_daily_loss : ℚ)
    (current_hour : ℕ) : Bool :=
  if recent_loss_count ≥ 3 then false
  else if today_loss_amount > max_daily_loss * (7/10) then true
  else if current_hour < 5 then false
  else true

/-- `TradeValidator.request_confirmation` with the pending-trades map
modelled as the list of pending trade ids, the generated uuid passed in as
`trade_id`, and the wait modelled by a `WaitOutcome`.  Returns the
response together with the updated pending list. -/
def request_confirmation (require_manual_confirmation : Bool) (recent_loss_count : ℕ)
    (today_loss_amount max_daily_loss : ℚ) (current_hour : ℕ)
    (trade_id : String) (pending_trades : List String) (wait : WaitOutcome) :
    ConfirmationResponse × List String :=
  if !check_trader_readiness recent_loss_count today_loss_amount max_daily_loss current_hour then
    ({ trade_id := trade_id, confirmed := false,
       reason := "Trader not ready (check loss limits or emotional state)" }, pending_trades)
  else if !require_manual_confirmation then
    ({ trade_id := trade_id, confirmed := true,
       reason := "Auto-confirmed (manual confirmation disabled)" }, pending_trades)
  else
    let pending_with := pending_trades ++ [trade_id]
    let confirmed := match wait with | .completed b => b | .timed_out => false
    let pending_after := pending_with.filter (fun t => t != trade_id)
    ({ trade_id := trade_id, confirmed := confirmed,
       reason := if confirmed then "Manual confirmation" else "Timeout or rejection" },
     pending_after)

/-! ## Orchestration loop (`main.py`) -/

/-- The externally visible steps of one iteration that the ordering claim
talks about. -/
inductive CycleEvent where
  | margin_check
  | signal_generation
  | confirmation_request
  | position_sizing
  | trade_execution
deriving DecidableEq, BEq

/-- The environment decisions taken during one iteration of `_main_loop`:
what the margin check, session manager, signal generator and validator
answer. -/
structure CycleEnv where
  margin_emergency : Bool
  closure_required : Bool
  no_trade : Bool
  session_allows : Bool
  margin_allows : Bool
  confirmed : Bool
deriving DecidableEq

/-- Trace of `ROROSentinel._process_signal`: session gate, then
`should_allow_new_position` (which performs a fresh margin check), then
the confirmation request, then position sizing, then execution. -/
def process_signal_trace (env : CycleEnv) : List CycleEvent :=
  if !env.session_allows then []
  else
    CycleEvent.margin_check ::
      (if !env.margin_allows then []
       else
         CycleEvent.confirmation_request ::
           (if !env.confirmed then []
            else [CycleEvent.position_sizing, CycleEvent.trade_execution]))

/-- Trace of one iteration of `ROROSentinel._main_loop`: margin check,
then (unless an emergency or a session closure aborts the iteration)
signal generation, then — for a tradable signal — the `_process_signal`
steps. -/
def cycle_trace (env : CycleEnv) : List CycleEvent :=
  CycleEvent.margin_check ::
    (if env.margin_emergency then []
     else if env.closure_required then []
     else
       CycleEvent.signal_generation ::
         (if env.no_trade then [] else process_signal_trace env))

/-- Index of the first occurrence of an event in a trace. -/
def first_index : List CycleEvent → CycleEvent → Option ℕ
  | [], _ => none
  | x :: xs, e => if x == e then some 0 else (first_index xs e).map (· + 1)

/-- An event occurs somewhere in the trace. -/
def occurs (trace : List CycleEvent) (e : CycleEvent) : Bool :=
  (first_index trace e).isSome

/-- The first occurrence of `a` is strictly before the first occurrence of
`b` (both must occur). -/
def occurs_before (trace : List CycleEvent) (a b : CycleEvent) : Bool :=
  match first_index trace a, first_index trace b with
  | some i, some j => decide (i < j)
  | _, _ => false

/-! ## Concrete fixtures used by witnesses and counterexamples.
Threshold values follow the configuration used by the repository's own
test suite. -/

/-- A minimal regime classification with a chosen regime label. -/
def sample_regime (t : RegimeType) : RegimeClassification :=
  { regime_type := t, score := 0, correlation_health := 0, vix_level := 0,
    threshold_used := 0, confidence := 0, session := "UNKNOWN", status := "OK",
    reason := "" }

/-- A previously fused trade signal carrying a chosen regime label. -/
def sample_signal (t : RegimeType) : TradeSignal :=
  no_trade_signal (sample_regime t) "HEALTHY"

/-- A validated-looking divergence candidate. -/
def sample_divergence : DivergenceSignal :=
  { type := .bullish, instrument := "US500", confidence := 9/10, magnitude := 1/100,
    correlation := 7/10 }

/-- The `config['regime']` section of the repository's test configuration. -/
def test_regime_section : RegimeSection :=
  { base_threshold_percent := 1/5, vix_low_max := 15, vix_moderate_max := 25,
    vix_high_max := 40, vix_low_multiplier := 1, vix_moderate_multiplier := 4/5,
    vix_high_multiplier := 3/5, vix_extreme_multiplier := 2/5,
    strong_risk_on_min := 3, weak_risk_on_min := 3/2, neutral_min := -3/2,
    weak_risk_off_min := -3 }

/-- The `config['correlation']` section of the repository's test
configuration. -/
def test_correlation_section : CorrelationSection :=
  { lookback_periods := 20, healthy_threshold := 13/20, critical_breakdown := 2/5,
    volatility_limit := 3/20 }

/-- The gauge weights of the repository's test configuration. -/
def test_weights : GaugeWeights :=
  { us500 := 7/20, usdjpy := 3/10, vix := 1/5, us10y := 1/10 }

/-- The `config['risk']` section of the repository's test configuration. -/
def test_risk_section : RiskSection :=
  { max_per_trade_risk_percent := 9/5, max_daily_risk_percent := 3,
    divergence_penalty := 1/2, max_leverage := 30, swap_cost_threshold := -10 }

/-! ## Claim theorems -/

/-- C1: whenever the previous fused signal's regime label and the newly
computed one form a significant transition pair, `generate_signal` returns
the CLOSE-all signal at priority P0 with confidence exactly 0.95,
independently of the divergence results, the quotes and the regime
score. -/
theorem regime_shift_emits_close_all (divergence_penalty : ℚ) (ls : TradeSignal)
    (regime : RegimeClassification) (correlation_healthy : Bool) (overall_health : String)
    (divergences : List DivergenceSignal) (quote : String → ℚ)
    (hshift : is_regime_shift (some ls) regime = true) :
    generate_signal divergence_penalty (some ls) regime correlation_healthy overall_health
        divergences quote =
      { id := "", signal_type := .close, instrument := "ALL", priority := .p0_critical,
        confidence := 19/20, regime := regime, divergence := none,
        correlation_health := overall_health, suggested_entry := 0, suggested_stop := 0,
        suggested_target := 0, position_size_multiplier := 0,
        reasoning := "REGIME SHIFT DETECTED" } := by
  simp [generate_signal, hshift, generate_regime_shift_signal]

/-- Witness for C1: a strong-risk-on → strong-risk-off transition, in the
presence of a high-confidence divergence, still yields the CLOSE-all P0
signal. -/
theorem regime_shift_emits_close_all_witness :
    is_regime_shift (some (sample_signal .strong_risk_on)) (sample_regime .strong_risk_off) =
      true ∧
    generate_signal 1 (some (sample_signal .strong_risk_on)) (sample_regime .strong_risk_off)
        true "HEALTHY" [sample_divergence] (fun _ => 4500) =
      { id := "", signal_type := .close, instrument := "ALL", priority := .p0_critical,
        confidence := 19/20, regime := sample_regime .strong_risk_off, divergence := none,
        correlation_health := "HEALTHY", suggested_entry := 0, suggested_stop := 0,
        suggested_target := 0, position_size_multiplier := 0,
        reasoning := "REGIME SHIFT DETECTED" } :=
  ⟨by decide,
   regime_shift_emits_close_all 1 (sample_signal .strong_risk_on)
     (sample_regime .strong_risk_off) true "HEALTHY" [sample_divergence] (fun _ => 4500)
     (by decide)⟩

/-- C2 counterexample: in a full go-path iteration the confirmation request
is issued strictly before position sizing, so the claimed
"sizing before confirmation" ordering is false on the code. -/
theorem confirmation_precedes_sizing_in_cycle :
    cycle_trace ⟨false, false, false, true, true, true⟩ =
      [.margin_check, .signal_generation, .margin_check, .confirmation_request,
       .position_sizing, .trade_execution] ∧
    occurs_before (cycle_trace ⟨false, false, false, true, true, true⟩)
      .confirmation_request .position_sizing = true ∧
    occurs_before (cycle_trace ⟨false, false, false, true, true, true⟩)
      .position_sizing .confirmation_request = false := by
  decide

/-- C2 amended: in every iteration trace, the margin check precedes signal
generation, signal generation precedes the confirmation request, the
confirmation request precedes position sizing, and sizing precedes the
external execution step (whenever the later step occurs at all). -/
theorem cycle_step_ordering (a b c d e f : Bool) :
    ((!occurs (cycle_trace ⟨a, b, c, d, e, f⟩) .signal_generation ||
        occurs_before (cycle_trace ⟨a, b, c, d, e, f⟩) .margin_check .signal_generation) &&
      (!occurs (cycle_trace ⟨a, b, c, d, e, f⟩) .confirmation_request ||
        occurs_before (cycle_trace ⟨a, b, c, d, e, f⟩) .signal_generation
          .confirmation_request) &&
      (!occurs (cycle_trace ⟨a, b, c, d, e, f⟩) .position_sizing ||
        occurs_before (cycle_trace ⟨a, b, c, d, e, f⟩) .confirmation_request
          .position_sizing) &&
      (!occurs (cycle_trace ⟨a, b, c, d, e, f⟩) .trade_execution ||
        occurs_before (cycle_trace ⟨a, b, c, d, e, f⟩) .position_sizing .trade_execution)) =
      true := by
  cases a <;> cases b <;> cases c <;> cases d <;> cases e <;> cases f <;> decide

/-- C3: the confidence computation is not clipped below zero — at a
strongly negative core correlation it returns −1/7, and `analyze_regime`
surfaces that negative confidence on a classification it produces,
contradicting the documented range [0, 1]. -/
theorem confidence_negative_at_negative_correlation :
    calculate_confidence (-1) 0 40 = -1/7 ∧
    calculate_confidence (-1) 0 40 < 0 ∧
    (analyze_regime test_regime_section test_correlation_section test_weights
        (fun _ _ _ => (-1, 0)) (.ok [100, 100]) (.ok [100, 100]) (.ok [40, 40])
        (.ok [9/2, 9/2]) "US_OVERLAP").confidence = -1/7 := by
  have h1 : calculate_confidence (-1) 0 40 = -1/7 := by
    unfold calculate_confidence pymin pymax
    norm_num
  refine ⟨h1, by rw [h1]; norm_num, ?_⟩
  have h2 : (analyze_regime test_regime_section test_correlation_section test_weights
      (fun _ _ _ => (-1, 0)) (.ok [100, 100]) (.ok [100, 100]) (.ok [40, 40])
      (.ok [9/2, 9/2]) "US_OVERLAP").confidence = calculate_confidence (-1) 0 40 := by
    simp only [analyze_regime, test_correlation_section, test_regime_section, lastD]
    norm_num [percent_change, trend_direction, lastD]
  rw [h2, h1]

/-- The margin-ratio ladder exactly as the claim words it: ratio =
equity / margin used, treated as +∞ (hence SAFE) when no margin is used;
cut points 1.25 / 1.5 / 1.75 / 2.5 with `<` comparisons throughout. -/
def spec_margin_level (equity margin_used : ℚ) : MarginLevel :=
  if margin_used = 0 then .safe
  else
    let ratio := equity / margin_used
    if ratio < 5/4 then .critical
    else if ratio < 3/2 then .danger
    else if ratio < 7/4 then .warning
    else if ratio < 5/2 then .monitor
    else .safe

/-- The mandatory action code the claim attaches to each ladder rung. -/
def spec_action : MarginLevel → String
  | .critical => "LIQUIDATE_NOW"
  | .danger => "IMMEDIATE_REDUCTION"
  | .warning => "STOP_NEW_ENTRIES"
  | .monitor => "MONITOR"
  | .safe => "NONE"

/-- C4: for every account state with non-negative margin usage,
`check_margin_safety` classifies on exactly the claimed 5-rung ladder
(in particular margin_used = 0 gives SAFE and the boundaries fall as the
claim states), and carries the rung's mandatory action code. -/
theorem margin_ladder_matches_spec (equity margin_used maintenance_margin : ℚ)
    (positions : List BrokerPosition) (hm : 0 ≤ margin_used) :
    (check_margin_safety equity margin_used maintenance_margin positions).level =
      spec_margin_level equity margin_used ∧
    (check_margin_safety equity margin_used maintenance_margin positions).action_required =
      spec_action (spec_margin_level equity margin_used) := by
  rcases eq_or_lt_of_le hm with h0 | hpos
  · have h0 : margin_used = 0 := h0.symm
    subst h0
    simp [check_margin_safety, spec_margin_level, MarginRatioValue.ltc, spec_action]
  · have hne : ¬ margin_used = 0 := ne_of_gt hpos
    by_cases h1 : equity / margin_used < 5/4
    · simp [check_margin_safety, spec_margin_level, MarginRatioValue.ltc, spec_action,
        hpos, hne, h1]
    · by_cases h2 : equity / margin_used < 3/2
      · simp [check_margin_safety, spec_margin_level, MarginRatioValue.ltc, spec_action,
          hpos, hne, h1, h2]
      · by_cases h3 : equity / margin_used < 7/4
        · simp [check_margin_safety, spec_margin_level, MarginRatioValue.ltc, spec_action,
            hpos, hne, h1, h2, h3]
        · by_cases h4 : equity / margin_used < 5/2
          · simp [check_margin_safety, spec_margin_level, MarginRatioValue.ltc, spec_action,
              hpos, hne, h1, h2, h3, h4]
          · simp [check_margin_safety, spec_margin_level, MarginRatioValue.ltc, spec_action,
              hpos, hne, h1, h2, h3, h4]

/-- Witness for C4: the account state with ratio 1.24999 (equity 124999,
margin used 100000), which the ladder places at CRITICAL. -/
theorem margin_ladder_matches_spec_witness :
    (0 : ℚ) ≤ 100000 ∧
    ((check_margin_safety 124999 100000 0 []).level = spec_margin_level 124999 100000 ∧
      (check_margin_safety 124999 100000 0 []).action_required =
        spec_action (spec_margin_level 124999 100000)) :=
  ⟨by norm_num, margin_ladder_matches_spec 124999 100000 0 [] (by norm_num)⟩

/-- Every signal surfaced by the scan passed the full filter pipeline. -/
lemma mem_scan_validate (filters : List DivergenceFilter) (core : Option DivergenceSignal)
    (satc : String → Except String (Option DivergenceSignal)) (s : DivergenceSignal)
    (hs : s ∈ scan_divergences filters core satc) : validate_divergence filters s = true := by
  unfold scan_divergences at hs
  rcases List.mem_append.mp hs with h | h
  · cases core with
    | none => simp at h
    | some c =>
      cases hv : validate_divergence filters c <;> simp [hv] at h
      exact h ▸ hv
  · obtain ⟨name, _, hmap⟩ := List.mem_filterMap.mp h
    cases hsat : satc name with
    | error e => rw [hsat] at hmap; simp at hmap
    | ok o =>
      cases o with
      | none => rw [hsat] at hmap; simp at hmap
      | some t =>
        rw [hsat] at hmap
        cases hv : validate_divergence filters t <;> simp [hv] at hmap
        exact hmap ▸ hv

/-- A filter that rejects or raises on a candidate makes validation fail. -/
lemma validate_false_of_filter (filters : List DivergenceFilter) (s : DivergenceSignal)
    (f : DivergenceFilter) (hf : f ∈ filters)
    (hrej : f s = Except.ok false ∨ ∃ e, f s = Except.error e) :
    validate_divergence filters s = false := by
  induction filters with
  | nil => cases hf
  | cons g rest ih =>
    rcases List.mem_cons.mp hf with rfl | hmem
    · rcases hrej with h | ⟨e, h⟩ <;> simp [validate_divergence, h]
    · cases hg : g s with
      | error e => simp [validate_divergence, hg]
      | ok b =>
        cases b with
        | true => simp [validate_divergence, hg]; exact ih hmem
        | false => simp [validate_divergence, hg]

/-- C5: a candidate on which some false-positive filter returns `False`
or raises is rejected by `_validate_divergence` (fail-closed) and is
absent from the list returned by `scan_divergences`. -/
theorem rejected_candidate_never_surfaced (filters : List DivergenceFilter)
    (core : Option DivergenceSignal) (satc : String → Except String (Option DivergenceSignal))
    (s : DivergenceSignal) (f : DivergenceFilter) (hf : f ∈ filters)
    (hrej : f s = Except.ok false ∨ ∃ e, f s = Except.error e) :
    validate_divergence filters s = false ∧ s ∉ scan_divergences filters core satc := by
  have hv := validate_false_of_filter filters s f hf hrej
  refine ⟨hv, fun hmem => ?_⟩
  have ht := mem_scan_validate filters core satc s hmem
  rw [hv] at ht
  exact Bool.false_ne_true ht

/-- A filter that always rejects. -/
def always_reject : DivergenceFilter := fun _ => Except.ok false

/-- Witness for C5: an otherwise-valid core candidate is absent from the
scan result once a rejecting filter is installed. -/
theorem rejected_candidate_never_surfaced_witness :
    always_reject ∈ [always_reject] ∧
    (always_reject sample_divergence = Except.ok false ∨
      ∃ e, always_reject sample_divergence = Except.error e) ∧
    (validate_divergence [always_reject] sample_divergence = false ∧
      sample_divergence ∉
        scan_divergences [always_reject] (some sample_divergence) (fun _ => Except.ok none)) :=
  ⟨List.mem_singleton.mpr rfl, Or.inl rfl,
   rejected_candidate_never_surfaced [always_reject] (some sample_divergence)
     (fun _ => Except.ok none) sample_divergence always_reject (List.mem_singleton.mpr rfl)
     (Or.inl rfl)⟩

/-- C6: `analyze_regime` resolves upstream failure to sentinels — a raised
history fetch yields the DATA_ERROR classification with zero score and
zero confidence, and excessive correlation volatility short-circuits to
the UNRELIABLE classification with zero score and zero confidence. -/
theorem analyze_regime_fail_closed_sentinels (rc : RegimeSection) (cc : CorrelationSection)
    (w : GaugeWeights) (calcCorr : List ℚ → List ℚ → ℕ → ℚ × ℚ)
    (spx usdjpy vix us10y : Except String (List ℚ)) (session : String) :
    ((∃ e, spx = .error e ∨ usdjpy = .error e ∨ vix = .error e ∨ us10y = .error e) →
      (analyze_regime rc cc w calcCorr spx usdjpy vix us10y session).regime_type =
          RegimeType.data_error ∧
        (analyze_regime rc cc w calcCorr spx usdjpy vix us10y session).score = 0 ∧
        (analyze_regime rc cc w calcCorr spx usdjpy vix us10y session).confidence = 0 ∧
        (analyze_regime rc cc w calcCorr spx usdjpy vix us10y session).status = "DATA_ERROR") ∧
    (∀ ls lu lv ly, spx = .ok ls → usdjpy = .ok lu → vix = .ok lv → us10y = .ok ly →
      (calcCorr ls lu cc.lookback_periods).2 > cc.volatility_limit →
      (analyze_regime rc cc w calcCorr spx usdjpy vix us10y session).regime_type =
          RegimeType.unreliable ∧
        (analyze_regime rc cc w calcCorr spx usdjpy vix us10y session).score = 0 ∧
        (analyze_regime rc cc w calcCorr spx usdjpy vix us10y session).confidence = 0 ∧
        (analyze_regime rc cc w calcCorr spx usdjpy vix us10y session).status = "UNRELIABLE") := by
  constructor
  · rintro ⟨e, he⟩
    cases spx with
    | error e1 => simp [analyze_regime, data_error_classification]
    | ok ls =>
      cases usdjpy with
      | error e2 => simp [analyze_regime, data_error_classification]
      | ok lu =>
        cases vix with
        | error e3 => simp [analyze_regime, data_error_classification]
        | ok lv =>
          cases us10y with
          | error e4 => simp [analyze_regime, data_error_classification]
          | ok ly => simp at he
  · intro ls lu lv ly h1 h2 h3 h4 hvol
    subst h1; subst h2; subst h3; subst h4
    simp only [analyze_regime]
    rw [if_pos hvol]
    exact ⟨rfl, rfl, rfl, rfl⟩

/-- Witness for C6: a failing US500 fetch gives DATA_ERROR; a correlation
volatility of 1 above the 0.15 limit gives UNRELIABLE. -/
theorem analyze_regime_fail_closed_sentinels_witness :
    ((analyze_regime test_regime_section test_correlation_section test_weights
        (fun _ _ _ => (0, 1)) (.error "feed down") (.ok []) (.ok []) (.ok [])
        "ASIAN").regime_type = RegimeType.data_error ∧
      (analyze_regime test_regime_section test_correlation_section test_weights
        (fun _ _ _ => (0, 1)) (.error "feed down") (.ok []) (.ok []) (.ok [])
        "ASIAN").score = 0 ∧
      (analyze_regime test_regime_section test_correlation_section test_weights
        (fun _ _ _ => (0, 1)) (.error "feed down") (.ok []) (.ok []) (.ok [])
        "ASIAN").confidence = 0 ∧
      (analyze_regime test_regime_section test_correlation_section test_weights
        (fun _ _ _ => (0, 1)) (.error "feed down") (.ok []) (.ok []) (.ok [])
        "ASIAN").status = "DATA_ERROR") ∧
    ((analyze_regime test_regime_section test_correlation_section test_weights
        (fun _ _ _ => (0, 1)) (.ok [100, 100]) (.ok [100, 100]) (.ok [40, 40]) (.ok [5, 5])
        "ASIAN").regime_type = RegimeType.unreliable ∧
      (analyze_regime test_regime_section test_correlation_section test_weights
        (fun _ _ _ => (0, 1)) (.ok [100, 100]) (.ok [100, 100]) (.ok [40, 40]) (.ok [5, 5])
        "ASIAN").score = 0 ∧
      (analyze_regime test_regime_section test_correlation_section test_weights
        (fun _ _ _ => (0, 1)) (.ok [100, 100]) (.ok [100, 100]) (.ok [40, 40]) (.ok [5, 5])
        "ASIAN").confidence = 0 ∧
      (analyze_regime test_regime_section test_correlation_section test_weights
        (fun _ _ _ => (0, 1)) (.ok [100, 100]) (.ok [100, 100]) (.ok [40, 40]) (.ok [5, 5])
        "ASIAN").status = "UNRELIABLE") :=
  ⟨(analyze_regime_fail_closed_sentinels test_regime_section test_correlation_section
      test_weights (fun _ _ _ => (0, 1)) (.error "feed down") (.ok []) (.ok []) (.ok [])
      "ASIAN").1 ⟨"feed down", Or.inl rfl⟩,
   (analyze_regime_fail_closed_sentinels test_regime_section test_correlation_section
      test_weights (fun _ _ _ => (0, 1)) (.ok [100, 100]) (.ok [100, 100]) (.ok [40, 40])
      (.ok [5, 5]) "ASIAN").2 [100, 100] [100, 100] [40, 40] [5, 5] rfl rfl rfl rfl
     (by norm_num [test_correlation_section])⟩

/-- C7: when the confirmation wait times out on a readiness-approved,
manually-confirmed trade, the response is not confirmed, its reason
indicates the timeout, and the pending-trade entry is removed. -/
theorem confirmation_timeout_rejects_and_clears (recent_loss_count : ℕ)
    (today_loss_amount max_daily_loss : ℚ) (current_hour : ℕ) (trade_id : String)
    (pending_trades : List String)
    (hready : check_trader_readiness recent_loss_count today_loss_amount max_daily_loss
        current_hour = true) :
    (request_confirmation true recent_loss_count today_loss_amount max_daily_loss current_hour
        trade_id pending_trades .timed_out).1.confirmed = false ∧
    (request_confirmation true recent_loss_count today_loss_amount max_daily_loss current_hour
        trade_id pending_trades .timed_out).1.reason = "Timeout or rejection" ∧
    trade_id ∉ (request_confirmation true recent_loss_count today_loss_amount max_daily_loss
        current_hour trade_id pending_trades .timed_out).2 := by
  simp [request_confirmation, hready, List.mem_filter]

/-- Witness for C7: a ready trader, manual confirmation required, timeout
elapses — the pending id "a1b2" is cleared and the trade is rejected. -/
theorem confirmation_timeout_rejects_and_clears_witness :
    check_trader_readiness 0 0 3 12 = true ∧
    ((request_confirmation true 0 0 3 12 "a1b2" ["a1b2", "c3d4"] .timed_out).1.confirmed =
        false ∧
      (request_confirmation true 0 0 3 12 "a1b2" ["a1b2", "c3d4"] .timed_out).1.reason =
        "Timeout or rejection" ∧
      "a1b2" ∉ (request_confirmation true 0 0 3 12 "a1b2" ["a1b2", "c3d4"] .timed_out).2) := by
  have h : check_trader_readiness 0 0 3 12 = true := by
    norm_num [check_trader_readiness]
  exact ⟨h, confirmation_timeout_rejects_and_clears 0 0 3 12 "a1b2" ["a1b2", "c3d4"] h⟩

/-- C8: at the repository's own test scenario (test configuration, equity
100000, today_risk_used set to 2.8, entry 4500, stop 4488, confidence
0.75, regime score 2, multiplier 1) the sizer returns risk_amount 1260,
not the ≤ 200 the test and the claim assert: the accumulator is held in
currency units while the scenario reads it as percentage points. -/
theorem daily_risk_scenario_contradicts_test :
    (calculate_position_size test_risk_section
        { active_divergences := [], today_risk_used := 14/5 } 100000 "US500" 4500 4488 (3/4)
        2 1).1.risk_amount = 1260 ∧
    ¬ ((calculate_position_size test_risk_section
        { active_divergences := [], today_risk_used := 14/5 } 100000 "US500" 4500 4488 (3/4)
        2 1).1.risk_amount ≤ 200) := by
  have h : (calculate_position_size test_risk_section
      { active_divergences := [], today_risk_used := 14/5 } 100000 "US500" 4500 4488 (3/4)
      2 1).1.risk_amount = 1260 := by
    simp only [calculate_position_size, project_overnight_cost, swap_rate,
      create_zero_position, pymin, pymax, pyabs, test_risk_section]
    norm_num
  exact ⟨h, by rw [h]; norm_num⟩

/-- The correlation-history fixture for C9: an older CRITICAL core-pair
entry followed by a HEALTHY core-pair entry and nine non-core entries, so
the CRITICAL entry is among the last ten core-pair entries but outside the
last ten history entries. -/
def c9_history : List CorrelationStatus :=
  { instrument1 := "US500", instrument2 := "USDJPY", correlation := 1/2, volatility := 1/10,
    health := .critical, lookback_periods := 20 } ::
  { instrument1 := "US500", instrument2 := "USDJPY", correlation := 7/10, volatility := 1/100,
    health := .healthy, lookback_periods := 20 } ::
  List.replicate 9
    { instrument1 := "US500", instrument2 := "VIX", correlation := -1/2, volatility := 1/100,
      health := .healthy, lookback_periods := 20 }

/-- C9 counterexample: one of the last ten core-pair entries recorded in
the history is CRITICAL, yet `is_correlation_healthy` returns `true`,
because the code slices the last ten entries of the whole history before
filtering for the core pair. -/
theorem core_health_ignores_older_core_entries :
    is_correlation_healthy c9_history = true ∧
    (lastSlice 10 (c9_history.filter is_core_pair)).any
      (fun s => s.health == CorrelationHealth.critical) = true := by
  decide

/-- C9 amended: `is_correlation_healthy` returns `true` exactly when the
core-pair entries among the last ten entries of the whole history are
nonempty and all HEALTHY or WARNING. -/
theorem core_health_query_characterization (history : List CorrelationStatus) :
    is_correlation_healthy history =
      (decide (((lastSlice 10 history).filter is_core_pair) ≠ []) &&
        ((lastSlice 10 history).filter is_core_pair).all healthy_or_warning) := by
  show (if ((lastSlice 10 history).filter is_core_pair).isEmpty then false
        else ((lastSlice 10 history).filter is_core_pair).all healthy_or_warning) = _
  cases hr : (lastSlice 10 history).filter is_core_pair <;> simp

/-- C10: sizing is read-only on the calculator's state — the daily-risk
accumulator and the active-divergence set are unchanged by
`calculate_position_size` for all inputs, and the accumulator moves only
through `update_daily_risk_used` / `reset_daily_risk`. -/
theorem calculate_position_size_preserves_state (cfg : RiskSection) (st : SizerState)
    (account_equity : ℚ) (instrument : String)
    (entry_price stop_loss_price signal_confidence regime_score position_size_multiplier
      risk_amount : ℚ) :
    ((calculate_position_size cfg st account_equity instrument entry_price stop_loss_price
        signal_confidence regime_score position_size_multiplier).2.today_risk_used =
      st.today_risk_used ∧
      (calculate_position_size cfg st account_equity instrument entry_price stop_loss_price
        signal_confidence regime_score position_size_multiplier).2.active_divergences =
        st.active_divergences) ∧
    (update_daily_risk_used st risk_amount).today_risk_used =
      st.today_risk_used + risk_amount ∧
    (update_daily_risk_used st risk_amount).active_divergences = st.active_divergences ∧
    (reset_daily_risk st).today_risk_used = 0 ∧
    (reset_daily_risk st).active_divergences = st.active_divergences := by
  have h : (calculate_position_size cfg st account_equity instrument entry_price
      stop_loss_price signal_confidence regime_score position_size_multiplier).2 = st := by
    simp [calculate_position_size, apply_ite (@Prod.snd PositionSizingResult SizerState),
      ite_self]
  exact ⟨⟨by rw [h], by rw [h]⟩, rfl, rfl, rfl, rfl⟩

end RoroSentinel
